import Mathlib

/-!
Shallow embedding of the `password` Go package (repository sunshineplan/password).

The package verifies user-supplied passwords against stored references
(bcrypt hashes or plaintext), tracks per-identity failure counts in an
expiring cache, enforces a max-attempts lockout, optionally decrypts an
RSA-PKCS1v15 envelope around the supplied password, and validates
password-change requests.

External collaborators (bcrypt, base64, RSA, the cache) are abstracted:
bcrypt verification and hash generation are oracle functions carried in an
`Env`, an RSA private key is modelled by its decryption capability, and the
cache is an association-list ledger from identity strings to failure counts
(TTL expiry is outside the scope of the verified claims; the code never
special-cases expiry, it only reads current state).

Embedded source functions:
  * `recordIncorrectPassword`, `IsMaxAttempts`, `Clear`,
    `GenerateFromPassword`, `compare`, `change`, `Compare`, `Change`,
    `CompareRSA`, `ChangeRSA`            — src/password.go
  * `Passworder.record`, `Passworder.recordIncorrect`,
    `Passworder.IsMaxAttempts`, `Passworder.Reset`, `Passworder.compare`
                                          — src/passworder.go
  * `PassworderLegacy.recordIncorrect`, `PassworderLegacy.compare`
                                          — src/unnamed/part_001
-/

namespace Password

/-- Result of `bcrypt.CompareHashAndPassword` when it fails: the sentinel
errors `ErrMismatchedHashAndPassword`, `ErrHashTooShort`, or any other
error (carried as a message). -/
inductive BcryptErr where
  | mismatch
  | hashTooShort
  | other (msg : String)
  deriving DecidableEq, BEq, Repr

/-- All error values the package can return, as a tagged variant.
`maxAttempts` is `maxPasswordAttemptsError`, `incorrect n` is
`incorrectPasswordError` carrying the cumulative count, `base64`/`rsa`
are propagated transport errors, `bcrypt` is a propagated bcrypt error,
`genError` is a propagated `bcrypt.GenerateFromPassword` error, and the
remaining constructors are the package's sentinel errors. -/
inductive Err where
  | maxAttempts (n : Nat)
  | incorrect (n : Nat)
  | base64 (msg : String)
  | rsa (msg : String)
  | bcrypt (e : BcryptErr)
  | confirmMismatch
  | samePassword
  | blankPassword
  | noPrivateKey
  | genError (msg : String)
  deriving DecidableEq, BEq, Repr

/-- An RSA private key, modelled by its PKCS#1 v1.5 decryption capability:
given ciphertext bytes it returns the plaintext or a decryption error. -/
structure RsaKey where
  decrypt : List Nat → Except String String

/-- Oracles for the external cryptographic primitives:
`bcrypt h p` models `bcrypt.CompareHashAndPassword([]byte(h), []byte(p))`
(`none` = match), `b64` models `base64.StdEncoding.DecodeString`, and
`generate` models `bcrypt.GenerateFromPassword` at `bcrypt.MinCost`. -/
structure Env where
  bcrypt : String → String → Option BcryptErr
  b64 : String → Except String (List Nat)
  generate : String → Except String String

/-- The attempt ledger: the package's expiring cache, as an association
list from identity to failure count. Lookup takes the most recent
binding; deletion removes every binding for the key. -/
abbrev Ledger := List (String × Nat)

/-- `c.Get(info)` on the attempt cache. -/
def Ledger.get : Ledger → String → Option Nat
  | [], _ => none
  | (k, v) :: rest, info => if k = info then some v else Ledger.get rest info

/-- `c.Set(info, n, duration, nil)` on the attempt cache (the TTL does not
affect the claims verified here). -/
def Ledger.set (st : Ledger) (info : String) (n : Nat) : Ledger :=
  (info, n) :: st

/-- `c.Delete(info)` on the attempt cache. -/
def Ledger.del (st : Ledger) (info : String) : Ledger :=
  st.filter (fun p => p.1 != info)

/-- src/password.go `recordIncorrectPassword`: increment the failure count
(absent counts as 0) and return the new state with the new count; the Go
function wraps the count in `incorrectPasswordError`. -/
def recordIncorrectPassword (st : Ledger) (info : String) : Ledger × Nat :=
  let n := match st.get info with
    | none => 1
    | some v => v + 1
  (st.set info n, n)

/-- src/password.go `IsMaxAttempts`: true iff a record is present and its
count is at least `maxAttempts` (the Go global, here the `max` argument). -/
def IsMaxAttempts (max : Nat) (st : Ledger) (info : String) : Bool :=
  match st.get info with
  | none => false
  | some v => decide (max ≤ v)

/-- src/password.go `Clear`: delete the identity's record. -/
def Clear (st : Ledger) (info : String) : Ledger :=
  st.del info

/-- src/password.go `GenerateFromPassword`: bcrypt-hash the password via
the oracle, propagating its error. -/
def GenerateFromPassword (env : Env) (password : String) : Except Err String :=
  match env.generate password with
  | .error e => .error (.genError e)
  | .ok hashed => .ok hashed

/-- The inline envelope decryption of src/password.go `compare`/`change`:
base64-decode then `rsa.DecryptPKCS1v15`, each failure propagating. -/
def decryptEnvelope (env : Env) (k : RsaKey) (s : String) : Except Err String :=
  match env.b64 s with
  | .error e => .error (.base64 e)
  | .ok ciphertext =>
    match k.decrypt ciphertext with
    | .error e => .error (.rsa e)
    | .ok plaintext => .ok plaintext

/-- src/password.go `compare(info, hashedPassword, password, hashed, priv)`.
Returns the updated ledger and either the plaintext password (Go:
`(password, true, nil)`) or the error (Go: `("", false, err)`). -/
def compare (env : Env) (max : Nat) (priv : Option RsaKey) (st : Ledger)
    (info hashedPassword password : String) (hashed : Bool) :
    Ledger × Except Err String :=
  if IsMaxAttempts max st info then
    (st, .error (.maxAttempts max))
  else
    let dec : Except Err String :=
      match priv with
      | none => .ok password
      | some k => decryptEnvelope env k password
    match dec with
    | .error e => (st, .error e)
    | .ok password =>
      if hashedPassword == password && !hashed then
        (Clear st info, .ok password)
      else
        match env.bcrypt hashedPassword password with
        | none => (Clear st info, .ok password)
        | some e =>
          if (!hashed && e == .hashTooShort) || e == .mismatch then
            let r := recordIncorrectPassword st info
            (r.1, .error (.incorrect r.2))
          else
            (st, .error (.bcrypt e))

/-- The validation switch of src/password.go `change`, entered once the
old-password check has succeeded and (in RSA mode) both new-password
envelopes have been decrypted. -/
def changeValidate (env : Env) (st : Ledger) (password new1 new2 : String) :
    Ledger × Except Err String :=
  if new1 != new2 then (st, .error .confirmMismatch)
  else if new1 == password then (st, .error .samePassword)
  else if new1 == "" then (st, .error .blankPassword)
  else (st, GenerateFromPassword env new1)

/-- src/password.go `change(info, hashedPassword, password, new1, new2,
hashed, priv)`. -/
def change (env : Env) (max : Nat) (priv : Option RsaKey) (st : Ledger)
    (info hashedPassword password new1 new2 : String) (hashed : Bool) :
    Ledger × Except Err String :=
  match compare env max priv st info hashedPassword password hashed with
  | (st2, .error e) => (st2, .error e)
  | (st2, .ok password) =>
    match priv with
    | none => changeValidate env st2 password new1 new2
    | some k =>
      match decryptEnvelope env k new1 with
      | .error e => (st2, .error e)
      | .ok n1 =>
        match decryptEnvelope env k new2 with
        | .error e => (st2, .error e)
        | .ok n2 => changeValidate env st2 password n1 n2

/-- src/password.go `Compare`: the exported wrapper, reporting only
success (`ok`) or the error. -/
def Compare (env : Env) (max : Nat) (st : Ledger)
    (info hashedPassword password : String) (hashed : Bool) :
    Ledger × Except Err Bool :=
  match compare env max none st info hashedPassword password hashed with
  | (st2, .ok _) => (st2, .ok true)
  | (st2, .error e) => (st2, .error e)

/-- src/password.go `Change`: the exported wrapper with no key. -/
def Change (env : Env) (max : Nat) (st : Ledger)
    (info hashedPassword password new1 new2 : String) (hashed : Bool) :
    Ledger × Except Err String :=
  change env max none st info hashedPassword password new1 new2 hashed

/-- src/password.go `CompareRSA`: fails with `ErrNoPrivateKey` when the
key is nil, otherwise `compare` with the key. -/
def CompareRSA (env : Env) (max : Nat) (priv : Option RsaKey) (st : Ledger)
    (info hashedPassword password : String) (hashed : Bool) :
    Ledger × Except Err Bool :=
  match priv with
  | none => (st, .error .noPrivateKey)
  | some k =>
    match compare env max (some k) st info hashedPassword password hashed with
    | (st2, .ok _) => (st2, .ok true)
    | (st2, .error e) => (st2, .error e)

/-- src/password.go `ChangeRSA`: fails with `ErrNoPrivateKey` when the
key is nil, otherwise `change` with the key. -/
def ChangeRSA (env : Env) (max : Nat) (priv : Option RsaKey) (st : Ledger)
    (info hashedPassword password new1 new2 : String) (hashed : Bool) :
    Ledger × Except Err String :=
  match priv with
  | none => (st, .error .noPrivateKey)
  | some _ => change env max priv st info hashedPassword password new1 new2 hashed

/-- src/passworder.go `Passworder`: per-verifier configuration. The cache
is passed as explicit ledger state, the duration is irrelevant to the
verified claims, and the key is its decryption capability. -/
structure Passworder where
  max : Nat
  key : Option RsaKey

/-- Modelled from the spec: the package-level `DecryptPKCS1v15(key, s)`
helper called by `Passworder.DecryptPKCS1v15` is not under src/; per the
spec (section 6) it base64-decodes `s` and RSA-decrypts the result with
PKCS#1 v1.5 padding, returning the plaintext or a decode/decrypt error —
the same pipeline `compare` inlines. -/
def DecryptPKCS1v15 (env : Env) (key : RsaKey) (s : String) : Except Err String :=
  decryptEnvelope env key s

/-- src/passworder.go `Passworder.record(id, n)`: add `n` to the stored
count (absent counts as 0), store it, and return the new count. -/
def Passworder.record (st : Ledger) (id : String) (n : Nat) : Ledger × Nat :=
  let n := match st.get id with
    | some v => n + v
    | none => n
  (st.set id n, n)

/-- src/passworder.go `Passworder.recordIncorrect`: record one failure;
the Go method wraps the new count in `incorrectPasswordError`. -/
def Passworder.recordIncorrect (st : Ledger) (id : String) : Ledger × Nat :=
  Passworder.record st id 1

/-- src/passworder.go `Passworder.IsMaxAttempts`: present and `>= p.max`. -/
def Passworder.IsMaxAttempts (p : Passworder) (st : Ledger) (id : String) : Bool :=
  match st.get id with
  | none => false
  | some v => decide (p.max ≤ v)

/-- src/passworder.go `Passworder.Reset`: delete the identity's record. -/
def Passworder.Reset (st : Ledger) (id : String) : Ledger :=
  st.del id

/-- src/passworder.go `Passworder.compare(id, key, password, hash)`. On a
decryption failure it records `p.max` attempts before propagating the
error; in hashed mode only `ErrMismatchedHashAndPassword` is counted; in
plaintext mode the bcrypt primitive is never consulted. -/
def Passworder.compare (env : Env) (p : Passworder) (st : Ledger)
    (id key password : String) (hash : Bool) : Ledger × Except Err String :=
  if p.IsMaxAttempts st id then
    (st, .error (.maxAttempts p.max))
  else
    let dec : Except Err String :=
      match p.key with
      | none => .ok password
      | some k => DecryptPKCS1v15 env k password
    match dec with
    | .error e => ((Passworder.record st id p.max).1, .error e)
    | .ok password =>
      if hash then
        match env.bcrypt key password with
        | none => (Passworder.Reset st id, .ok password)
        | some .mismatch =>
          let r := Passworder.recordIncorrect st id
          (r.1, .error (.incorrect r.2))
        | some e => (st, .error (.bcrypt e))
      else
        if key != password then
          let r := Passworder.recordIncorrect st id
          (r.1, .error (.incorrect r.2))
        else
          (Passworder.Reset st id, .ok password)

namespace PassworderLegacy

/-- src/unnamed/part_001 `Passworder.recordIncorrect`: increment the
failure count (absent counts as 0) and store it; the Go method wraps the
new count in `incorrectPasswordError`. -/
def recordIncorrect (st : Ledger) (id : String) : Ledger × Nat :=
  let n := match st.get id with
    | none => 1
    | some v => v + 1
  (st.set id n, n)

/-- src/unnamed/part_001 `Passworder.compare(id, key, password, hash)`.
A decryption failure propagates with no ledger write; in hashed mode
`recordIncorrect` runs on every bcrypt error, but its error value
replaces the bcrypt error only for `ErrMismatchedHashAndPassword`. -/
def compare (env : Env) (p : Passworder) (st : Ledger)
    (id key password : String) (hash : Bool) : Ledger × Except Err String :=
  if p.IsMaxAttempts st id then
    (st, .error (.maxAttempts p.max))
  else
    let dec : Except Err String :=
      match p.key with
      | none => .ok password
      | some k => DecryptPKCS1v15 env k password
    match dec with
    | .error e => (st, .error e)
    | .ok password =>
      if hash then
        match env.bcrypt key password with
        | none => (Passworder.Reset st id, .ok password)
        | some e =>
          let r := recordIncorrect st id
          if e == .mismatch then
            (r.1, .error (.incorrect r.2))
          else
            (r.1, .error (.bcrypt e))
      else
        if key != password then
          let r := recordIncorrect st id
          (r.1, .error (.incorrect r.2))
        else
          (Passworder.Reset st id, .ok password)

end PassworderLegacy

/-- `k` successive calls of `compare` (no key) with the same identity,
reference and supplied password, threading the ledger state. -/
def compareIter (env : Env) (max : Nat) (st : Ledger)
    (info hashedPassword password : String) (hashed : Bool) : Nat → Ledger
  | 0 => st
  | k + 1 =>
    (compare env max none
      (compareIter env max st info hashedPassword password hashed k)
      info hashedPassword password hashed).1

/-- The new-password decryption step of `change`: identity when no key is
configured, envelope decryption otherwise. -/
def decNew (env : Env) (priv : Option RsaKey) (s : String) : Except Err String :=
  match priv with
  | none => .ok s
  | some k => decryptEnvelope env k s

/-- Concrete oracle set: bcrypt always reports a mismatch, base64 always
decodes, hashing prepends `H`. -/
def envMismatch : Env where
  bcrypt := fun _ _ => some .mismatch
  b64 := fun _ => .ok []
  generate := fun s => .ok (String.append "H" s)

/-- Concrete oracle set: bcrypt always reports `ErrHashTooShort`. -/
def envTooShort : Env where
  bcrypt := fun _ _ => some .hashTooShort
  b64 := fun _ => .ok []
  generate := fun s => .ok (String.append "H" s)

/-- Concrete oracle set: base64 decoding always fails. -/
def envBadB64 : Env where
  bcrypt := fun _ _ => some .mismatch
  b64 := fun _ => .error "bad base64"
  generate := fun s => .ok (String.append "H" s)

/-- Concrete oracle set: base64 always decodes to the byte `[7]`. -/
def envRSA : Env where
  bcrypt := fun _ _ => some .mismatch
  b64 := fun _ => .ok [7]
  generate := fun s => .ok (String.append "H" s)

/-- A private key whose decryption always fails. -/
def keyFail : RsaKey where
  decrypt := fun _ => .error "decrypt failed"

/-- A private key that decrypts every ciphertext to `"p"`. -/
def keyConstP : RsaKey where
  decrypt := fun _ => .ok "p"

/-- A `Passworder` with threshold 2 and the always-failing key. -/
def pwFail : Passworder where
  max := 2
  key := some keyFail

/-- A `Passworder` with threshold 5 and no key. -/
def pwPlain : Passworder where
  max := 5
  key := none

/-! ### Ledger lemmas -/

theorem Ledger.get_set_self (st : Ledger) (info : String) (n : Nat) :
    (st.set info n).get info = some n := by
  simp [Ledger.set, Ledger.get]

theorem Ledger.get_del_self (st : Ledger) (info : String) :
    (Ledger.del st info).get info = none := by
  induction st with
  | nil => rfl
  | cons a rest ih =>
    by_cases h : a.1 = info
    · simpa [Ledger.del, List.filter_cons, h] using ih
    · simpa [Ledger.del, List.filter_cons, h, Ledger.get] using ih

/-- `IsMaxAttempts` is a pure read: true exactly when a record is present
with count at least the threshold. -/
theorem isMaxAttempts_iff (max : Nat) (st : Ledger) (info : String) :
    IsMaxAttempts max st info = true ↔ ∃ v, st.get info = some v ∧ max ≤ v := by
  unfold IsMaxAttempts
  cases h : st.get info <;> simp

/-! ### The mismatch step of `compare` -/

/-- A `compare` call (no key) from a non-locked state that misses the
plaintext-equality shortcut and whose bcrypt result is counted as a
credential failure increments the identity's count by one and reports it. -/
theorem compare_mismatch_step (env : Env) (max : Nat) (st : Ledger)
    (info ref w : String) (hashed : Bool)
    (hlock : IsMaxAttempts max st info = false)
    (hne : (ref == w && !hashed) = false)
    {e : BcryptErr} (hbc : env.bcrypt ref w = some e)
    (he : ((!hashed && e == BcryptErr.hashTooShort) || e == BcryptErr.mismatch) = true) :
    compare env max none st info ref w hashed
      = (Ledger.set st info ((Ledger.get st info).getD 0 + 1),
         .error (.incorrect ((Ledger.get st info).getD 0 + 1))) := by
  cases hg : Ledger.get st info <;>
    simp [compare, hlock, hne, hbc, he, recordIncorrectPassword, hg]

/-- Starting from an absent record, `k` counted mismatches leave the
identity's count at exactly `k`, for every `k` up to the threshold. -/
theorem compareIter_get (env : Env) (max : Nat) (st : Ledger)
    (info ref w : String) (hashed : Bool)
    (h0 : Ledger.get st info = none)
    (hne : (ref == w && !hashed) = false)
    {e : BcryptErr} (hbc : env.bcrypt ref w = some e)
    (he : ((!hashed && e == BcryptErr.hashTooShort) || e == BcryptErr.mismatch) = true) :
    ∀ k, k ≤ max →
      Ledger.get (compareIter env max st info ref w hashed k) info
        = if k = 0 then none else some k := by
  intro k
  induction k with
  | zero => intro _; simpa [compareIter] using h0
  | succ k ih =>
    intro hk
    have hget := ih (Nat.le_of_succ_le hk)
    have hcount :
        (Ledger.get (compareIter env max st info ref w hashed k) info).getD 0 = k := by
      by_cases h : k = 0
      · simp [h] at hget; simp [hget, h]
      · simp [h] at hget; simp [hget]
    have hlock :
        IsMaxAttempts max (compareIter env max st info ref w hashed k) info = false := by
      by_cases h : k = 0
      · subst h
        simp at hget
        simp [IsMaxAttempts, hget]
      · simp [h] at hget
        simp [IsMaxAttempts, hget]
        omega
    have hs := compare_mismatch_step env max
      (compareIter env max st info ref w hashed k) info ref w hashed hlock hne hbc he
    show Ledger.get
        (compare env max none (compareIter env max st info ref w hashed k) info ref w hashed).1
        info = _
    rw [hs]
    simp [Ledger.get_set_self, hcount]

/-- Each of the first `max` mismatch calls is counted: call `k + 1` returns
`incorrectPasswordError (k + 1)` and steps the iterated state. -/
theorem compareIter_call (env : Env) (max : Nat) (st : Ledger)
    (info ref w : String) (hashed : Bool)
    (h0 : Ledger.get st info = none)
    (hne : (ref == w && !hashed) = false)
    {e : BcryptErr} (hbc : env.bcrypt ref w = some e)
    (he : ((!hashed && e == BcryptErr.hashTooShort) || e == BcryptErr.mismatch) = true)
    (k : Nat) (hk : k < max) :
    compare env max none (compareIter env max st info ref w hashed k) info ref w hashed
      = (compareIter env max st info ref w hashed (k + 1),
         .error (.incorrect (k + 1))) := by
  have hget := compareIter_get env max st info ref w hashed h0 hne hbc he k (Nat.le_of_lt hk)
  have hcount :
      (Ledger.get (compareIter env max st info ref w hashed k) info).getD 0 = k := by
    by_cases h : k = 0
    · simp [h] at hget; simp [hget, h]
    · simp [h] at hget; simp [hget]
  have hlock :
      IsMaxAttempts max (compareIter env max st info ref w hashed k) info = false := by
    by_cases h : k = 0
    · subst h
      simp at hget
      simp [IsMaxAttempts, hget]
    · simp [h] at hget
      simp [IsMaxAttempts, hget]
      omega
  have hs := compare_mismatch_step env max
    (compareIter env max st info ref w hashed k) info ref w hashed hlock hne hbc he
  rw [hs]
  show _ = ((compare env max none (compareIter env max st info ref w hashed k) info ref w hashed).1, _)
  rw [hs]
  simp [hcount]

/-! ### Claim theorems -/

/-- C1: starting from an absent record, `max` consecutive credential-mismatch
calls to `compare` each record one failure (call `k + 1` reports count
`k + 1`); after them the record holds exactly `max` and the identity is
locked; the next call, with any key, any supplied password (in particular
the correct one) and any hashed flag, returns the max-attempts outcome and
leaves the ledger unchanged; and lockout is read-time only: `IsMaxAttempts`
holds iff a record is present with count at least the threshold. -/
theorem lockout_after_threshold_mismatches
    (env : Env) (max : Nat) (st : Ledger) (info ref w : String) (hashed : Bool)
    (hmax : 1 ≤ max)
    (h0 : Ledger.get st info = none)
    (hne : (ref == w && !hashed) = false)
    {e : BcryptErr} (hbc : env.bcrypt ref w = some e)
    (he : ((!hashed && e == BcryptErr.hashTooShort) || e == BcryptErr.mismatch) = true) :
    (∀ k, k < max →
      compare env max none (compareIter env max st info ref w hashed k) info ref w hashed
        = (compareIter env max st info ref w hashed (k + 1),
           .error (.incorrect (k + 1))))
  ∧ Ledger.get (compareIter env max st info ref w hashed max) info = some max
  ∧ IsMaxAttempts max (compareIter env max st info ref w hashed max) info = true
  ∧ (∀ (priv : Option RsaKey) (s2 : String) (h2 : Bool),
      compare env max priv (compareIter env max st info ref w hashed max) info ref s2 h2
        = (compareIter env max st info ref w hashed max, .error (.maxAttempts max)))
  ∧ (∀ (st2 : Ledger) (i2 : String),
      IsMaxAttempts max st2 i2 = true ↔ ∃ v, Ledger.get st2 i2 = some v ∧ max ≤ v) := by
  have hfinal : Ledger.get (compareIter env max st info ref w hashed max) info = some max := by
    have := compareIter_get env max st info ref w hashed h0 hne hbc he max (Nat.le_refl max)
    have hmax0 : ¬ max = 0 := by omega
    simpa [hmax0] using this
  have hlocked : IsMaxAttempts max (compareIter env max st info ref w hashed max) info = true := by
    simp [IsMaxAttempts, hfinal]
  refine ⟨fun k hk => compareIter_call env max st info ref w hashed h0 hne hbc he k hk,
          hfinal, hlocked, fun priv s2 h2 => ?_, fun st2 i2 => isMaxAttempts_iff max st2 i2⟩
  simp [compare, hlocked]

/-- Witness for C1 at threshold 2: two mismatches of `"w"` against `"r"`
for identity `"a"` lock it; the third call with the correct password `"r"`
is refused with the max-attempts outcome and the same ledger. -/
theorem lockout_after_threshold_mismatches_witness :
    Ledger.get (compareIter envMismatch 2 [] "a" "r" "w" false 2) "a" = some 2
  ∧ compare envMismatch 2 none (compareIter envMismatch 2 [] "a" "r" "w" false 2) "a" "r" "r" false
      = (compareIter envMismatch 2 [] "a" "r" "w" false 2, .error (.maxAttempts 2)) := by
  have h := lockout_after_threshold_mismatches envMismatch 2 [] "a" "r" "w" false
    (by decide) rfl rfl rfl rfl
  exact ⟨h.2.1, h.2.2.2.1 none "r" false⟩

/-- C2 counterexample: in `Passworder.compare` (src/passworder.go) with a
key configured and threshold 2, a base64 decode failure of the supplied
password propagates as-is but writes the attempt ledger: identity `"a"`
goes from no record to count 2 and is locked by a single transport error. -/
theorem transport_error_writes_ledger_cex :
    Ledger.get ([] : Ledger) "a" = none
  ∧ Passworder.compare envBadB64 pwFail [] "a" "r" "w" false
      = ([("a", 2)], .error (.base64 "bad base64"))
  ∧ Ledger.get ([("a", 2)] : Ledger) "a" = some 2
  ∧ Passworder.IsMaxAttempts pwFail [("a", 2)] "a" = true :=
  ⟨rfl, rfl, rfl, rfl⟩

/-- C2 (amended): in the package-level `compare` and `change` a transport
failure of the supplied password (base64 or RSA) propagates as-is with no
ledger write; but in `Passworder.compare` (src/passworder.go) a decryption
failure, while still propagated as-is, adds `p.max` to the identity's
count before returning. -/
theorem transport_error_ledger_policy
    (env : Env) (max : Nat) (k : RsaKey) (st : Ledger)
    (info ref pw new1 new2 : String) (hashed : Bool)
    (hlock : IsMaxAttempts max st info = false) :
    (∀ msg, env.b64 pw = .error msg →
      compare env max (some k) st info ref pw hashed = (st, .error (.base64 msg))
      ∧ change env max (some k) st info ref pw new1 new2 hashed
          = (st, .error (.base64 msg)))
  ∧ (∀ ct msg, env.b64 pw = .ok ct → k.decrypt ct = .error msg →
      compare env max (some k) st info ref pw hashed = (st, .error (.rsa msg))
      ∧ change env max (some k) st info ref pw new1 new2 hashed
          = (st, .error (.rsa msg)))
  ∧ (∀ (p : Passworder) (kP : RsaKey) (stP : Ledger) (id refP pwP : String)
        (hashP : Bool) (e2 : Err),
      p.key = some kP →
      Passworder.IsMaxAttempts p stP id = false →
      DecryptPKCS1v15 env kP pwP = .error e2 →
      Passworder.compare env p stP id refP pwP hashP
        = (Ledger.set stP id
            (((Ledger.get stP id).map (p.max + ·)).getD p.max), .error e2)) := by
  refine ⟨fun msg hb => ?_, fun ct msg hb hd => ?_,
          fun p kP stP id refP pwP hashP e2 hkey hlockP hdec => ?_⟩
  · have hc : compare env max (some k) st info ref pw hashed = (st, .error (.base64 msg)) := by
      simp [compare, hlock, decryptEnvelope, hb]
    exact ⟨hc, by simp [change, hc]⟩
  · have hc : compare env max (some k) st info ref pw hashed = (st, .error (.rsa msg)) := by
      simp [compare, hlock, decryptEnvelope, hb, hd]
    exact ⟨hc, by simp [change, hc]⟩
  · cases hg : Ledger.get stP id <;>
      simp [Passworder.compare, hlockP, hkey, hdec, Passworder.record, hg]

/-- Witness for C2 (amended): concrete transport failures for the
package-level `compare`/`change` leave the ledger unchanged, while
`Passworder.compare` books `p.max = 2` attempts for the same failure. -/
theorem transport_error_ledger_policy_witness :
    (compare envBadB64 5 (some keyFail) [] "a" "r" "w" false
        = ([], .error (.base64 "bad base64"))
      ∧ change envBadB64 5 (some keyFail) [] "a" "r" "w" "n" "n" false
        = ([], .error (.base64 "bad base64")))
  ∧ (compare envRSA 5 (some keyFail) [] "a" "r" "w" false
        = ([], .error (.rsa "decrypt failed"))
      ∧ change envRSA 5 (some keyFail) [] "a" "r" "w" "n" "n" false
        = ([], .error (.rsa "decrypt failed")))
  ∧ Passworder.compare envBadB64 pwFail [] "a" "r" "w" false
      = ([("a", 2)], .error (.base64 "bad base64")) := by
  have h1 := transport_error_ledger_policy envBadB64 5 keyFail [] "a" "r" "w" "n" "n" false rfl
  have h2 := transport_error_ledger_policy envRSA 5 keyFail [] "a" "r" "w" "n" "n" false rfl
  exact ⟨h1.1 "bad base64" rfl, h2.2.1 [7] "decrypt failed" rfl rfl,
         h1.2.2 pwFail keyFail [] "a" "r" "w" false (.base64 "bad base64") rfl rfl rfl⟩

/-- C3: a `compare` call that succeeds deletes the identity's attempt
record entirely, in both the package-level `compare` (src/password.go) and
`Passworder.compare` (src/passworder.go), whatever the prior count was. -/
theorem compare_success_resets
    (env : Env) (max : Nat) (priv : Option RsaKey) (st st2 : Ledger)
    (info ref pw out : String) (hashed : Bool)
    (env2 : Env) (p : Passworder) (stP stP2 : Ledger)
    (id refP pwP outP : String) (hashP : Bool)
    (h1 : compare env max priv st info ref pw hashed = (st2, .ok out))
    (h2 : Passworder.compare env2 p stP id refP pwP hashP = (stP2, .ok outP)) :
    Ledger.get st2 info = none ∧ Ledger.get stP2 id = none := by
  constructor
  · have hdel : st2 = Clear st info := by
      simp only [compare] at h1
      split at h1
      · simp at h1
      · split at h1
        · simp at h1
        · split at h1
          · exact (Prod.mk.injEq .. ▸ h1).1.symm
          · split at h1
            · exact (Prod.mk.injEq .. ▸ h1).1.symm
            · split at h1 <;> simp at h1
    simp [hdel, Clear, Ledger.get_del_self]
  · have hdel : stP2 = Passworder.Reset stP id := by
      simp only [Passworder.compare] at h2
      split at h2
      · simp at h2
      · split at h2
        · simp at h2
        · split at h2
          · split at h2
            · exact (Prod.mk.injEq .. ▸ h2).1.symm
            · simp at h2
            · simp at h2
          · split at h2
            · simp at h2
            · exact (Prod.mk.injEq .. ▸ h2).1.symm
    simp [hdel, Passworder.Reset, Ledger.get_del_self]

/-- Witness for C3: a plaintext-equality success clears a prior count of 3
in the package-level `compare` and a prior count of 4 in
`Passworder.compare`. -/
theorem compare_success_resets_witness :
    Ledger.get ([] : Ledger) "a" = none ∧ Ledger.get ([] : Ledger) "b" = none :=
  compare_success_resets envMismatch 5 none [("a", 3)] [] "a" "x" "x" "x" false
    envMismatch pwPlain [("b", 4)] [] "b" "y" "y" "y" false rfl rfl

/-- C4 counterexample: with a key configured and identity `"a"` already at
the threshold, a supplied password whose base64 decoding fails is refused
with the max-attempts outcome, not the transport error: the lockout check
runs before decryption in src/password.go `compare`. -/
theorem lockout_before_decrypt_cex :
    envBadB64.b64 "garbage" = .error "bad base64"
  ∧ compare envBadB64 2 (some keyFail) [("a", 2)] "a" "r" "garbage" false
      = ([("a", 2)], .error (.maxAttempts 2)) :=
  ⟨rfl, rfl⟩

/-- C4 (amended): in `compare` the lockout check precedes envelope
decryption: a locked identity is refused with the max-attempts outcome
whatever the supplied envelope, and only a non-locked identity with a
failing base64 decode gets the transport error (with no ledger write). -/
theorem lockout_check_precedes_decrypt
    (env : Env) (max : Nat) (priv : Option RsaKey) (st : Ledger)
    (info ref pw : String) (hashed : Bool) :
    (IsMaxAttempts max st info = true →
      compare env max priv st info ref pw hashed = (st, .error (.maxAttempts max)))
  ∧ (∀ k msg, priv = some k → IsMaxAttempts max st info = false →
      env.b64 pw = .error msg →
      compare env max priv st info ref pw hashed = (st, .error (.base64 msg))) := by
  refine ⟨fun hlock => by simp [compare, hlock], fun k msg hp hlock hb => ?_⟩
  subst hp
  simp [compare, hlock, decryptEnvelope, hb]

/-- Witness for C4 (amended): a locked identity with a malformed envelope
is refused as locked; the same malformed envelope for a fresh identity
yields the transport error with the ledger untouched. -/
theorem lockout_check_precedes_decrypt_witness :
    compare envBadB64 2 (some keyFail) [("a", 2)] "a" "r" "g" false
      = ([("a", 2)], .error (.maxAttempts 2))
  ∧ compare envBadB64 2 (some keyFail) [] "a" "r" "g" false
      = ([], .error (.base64 "bad base64")) :=
  ⟨(lockout_check_precedes_decrypt envBadB64 2 (some keyFail) [("a", 2)] "a" "r" "g" false).1 rfl,
   (lockout_check_precedes_decrypt envBadB64 2 (some keyFail) [] "a" "r" "g" false).2
     keyFail "bad base64" rfl rfl rfl⟩

/-- C5: `CompareRSA` and `ChangeRSA` with a nil private key return the
dedicated no-private-key error immediately, for every input and every
ledger state, and return the ledger exactly as given: no read influences
the outcome and no write occurs, so no attempt budget is consumed. -/
theorem rsa_entry_nil_key_fails_fast
    (env : Env) (max : Nat) (st : Ledger)
    (info ref pw new1 new2 : String) (hashed : Bool) :
    CompareRSA env max none st info ref pw hashed = (st, .error .noPrivateKey)
  ∧ ChangeRSA env max none st info ref pw new1 new2 hashed
      = (st, .error .noPrivateKey) :=
  ⟨rfl, rfl⟩

/-- C6 counterexample: in the legacy `Passworder.compare`
(src/unnamed/part_001) with `hash = true`, a bcrypt hash-too-short result
is surfaced distinctly as required, but the attempt ledger IS written:
identity `"a"` goes from no record to count 1. -/
theorem hash_too_short_records_legacy_cex :
    Ledger.get ([] : Ledger) "a" = none
  ∧ PassworderLegacy.compare envTooShort pwPlain [] "a" "h" "w" true
      = ([("a", 1)], .error (.bcrypt .hashTooShort))
  ∧ Ledger.get ([("a", 1)] : Ledger) "a" = some 1 :=
  ⟨rfl, rfl, rfl⟩

/-- C6 (amended): in the package-level `compare`, a hash-too-short bcrypt
result with `hashed = false` is an ordinary counted credential failure and
with `hashed = true` is surfaced distinctly with no ledger write; in the
legacy `Passworder.compare` (src/unnamed/part_001) the hashed-mode
hash-too-short error is surfaced distinctly but the attempt is still
recorded. -/
theorem hash_too_short_policy
    (env : Env) (max : Nat) (st : Ledger) (info ref pw : String)
    (hlock : IsMaxAttempts max st info = false)
    (hne : (ref == pw) = false)
    (hbc : env.bcrypt ref pw = some BcryptErr.hashTooShort) :
    compare env max none st info ref pw false
      = (Ledger.set st info ((Ledger.get st info).getD 0 + 1),
         .error (.incorrect ((Ledger.get st info).getD 0 + 1)))
  ∧ compare env max none st info ref pw true
      = (st, .error (.bcrypt .hashTooShort))
  ∧ (∀ (p : Passworder) (stP : Ledger) (id : String),
      p.key = none → Passworder.IsMaxAttempts p stP id = false →
      PassworderLegacy.compare env p stP id ref pw true
        = (Ledger.set stP id ((Ledger.get stP id).getD 0 + 1),
           .error (.bcrypt .hashTooShort))) := by
  have hts : (BcryptErr.hashTooShort == BcryptErr.mismatch) = false := by decide
  refine ⟨?_, ?_, fun p stP id hkey hlockP => ?_⟩
  · exact compare_mismatch_step env max st info ref pw false hlock
      (by simp [hne]) hbc (by decide)
  · simp [compare, hlock, hbc, hts]
  · cases hg : Ledger.get stP id <;>
      simp [PassworderLegacy.compare, hlockP, hkey, hbc, hts,
            PassworderLegacy.recordIncorrect, hg]

/-- Witness for C6 (amended): with an always-hash-too-short bcrypt oracle,
plaintext mode counts the failure, hashed mode surfaces the error with no
write, and the legacy Passworder in hashed mode surfaces the error while
still recording one attempt. -/
theorem hash_too_short_policy_witness :
    compare envTooShort 5 none [] "a" "h" "w" false
      = ([("a", 1)], .error (.incorrect 1))
  ∧ compare envTooShort 5 none [] "a" "h" "w" true
      = ([], .error (.bcrypt .hashTooShort))
  ∧ PassworderLegacy.compare envTooShort pwPlain [] "b" "h" "w" true
      = ([("b", 1)], .error (.bcrypt .hashTooShort)) := by
  have h := hash_too_short_policy envTooShort 5 [] "a" "h" "w" rfl rfl rfl
  exact ⟨h.1, h.2.1, h.2.2 pwPlain [] "b" rfl rfl⟩

/-- C7: once the old-password check has succeeded (recovering plaintext
`pw`) and, in RSA mode, both new-password envelopes have decrypted (to
`n1` and `n2`), `change` validates in the fixed order confirm-mismatch,
same-as-old, blank, the first failing rule winning, and only when all
three pass hashes the new candidate and returns it. -/
theorem change_validation_order
    (env : Env) (max : Nat) (priv : Option RsaKey) (st st2 : Ledger)
    (info ref old pw new1 new2 n1 n2 : String) (hashed : Bool)
    (hcmp : compare env max priv st info ref old hashed = (st2, .ok pw))
    (h1 : decNew env priv new1 = .ok n1)
    (h2 : decNew env priv new2 = .ok n2) :
    change env max priv st info ref old new1 new2 hashed
      = (st2,
         if n1 ≠ n2 then .error .confirmMismatch
         else if n1 = pw then .error .samePassword
         else if n1 = "" then .error .blankPassword
         else GenerateFromPassword env n1) := by
  cases priv with
  | none =>
    simp only [decNew] at h1 h2
    cases h1; cases h2
    simp only [change, hcmp, changeValidate]
    split <;> split <;> try split
    all_goals simp_all [bne_iff_ne, beq_iff_eq]
  | some k =>
    simp only [decNew] at h1 h2
    simp only [change, hcmp, h1, h2, changeValidate]
    split <;> split <;> try split
    all_goals simp_all [bne_iff_ne, beq_iff_eq]

/-- Witness for C7: after a successful plaintext old-password check, a
mismatching confirmation, a same-as-old candidate, a blank candidate and a
valid candidate produce, in order, ConfirmMismatch, SamePassword,
BlankPassword and the freshly hashed credential. -/
theorem change_validation_order_witness :
    change envMismatch 5 none [] "a" "old" "old" "new" "other" false
      = ([], .error .confirmMismatch)
  ∧ change envMismatch 5 none [] "a" "old" "old" "old" "old" false
      = ([], .error .samePassword)
  ∧ change envMismatch 5 none [] "a" "old" "old" "" "" false
      = ([], .error .blankPassword)
  ∧ change envMismatch 5 none [] "a" "old" "old" "new" "new" false
      = ([], .ok "Hnew") := by
  refine ⟨?_, ?_, ?_, ?_⟩
  · exact (change_validation_order envMismatch 5 none [] [] "a" "old" "old" "old"
      "new" "other" "new" "other" false rfl rfl rfl).trans (by rfl)
  · exact (change_validation_order envMismatch 5 none [] [] "a" "old" "old" "old"
      "old" "old" "old" "old" false rfl rfl rfl).trans (by rfl)
  · exact (change_validation_order envMismatch 5 none [] [] "a" "old" "old" "old"
      "" "" "" "" false rfl rfl rfl).trans (by rfl)
  · exact (change_validation_order envMismatch 5 none [] [] "a" "old" "old" "old"
      "new" "new" "new" "new" false rfl rfl rfl).trans (by rfl)

/-- C8: for a non-locked identity, in plaintext mode (`hashed = false`)
exact string equality of reference and supplied password succeeds for
every bcrypt oracle — the hashing primitive is never consulted — clearing
the record and recording no failure; in hashed mode the equality shortcut
is skipped and the bcrypt primitive decides: a match succeeds and a
mismatch is a counted failure even if the supplied password is string
equal to the stored hash. -/
theorem plaintext_equality_policy
    (env : Env) (max : Nat) (st : Ledger) (info ref pw : String)
    (hlock : IsMaxAttempts max st info = false) :
    (ref = pw →
      ∀ e2 : Env, compare e2 max none st info ref pw false = (Clear st info, .ok pw))
  ∧ (env.bcrypt ref pw = none →
      compare env max none st info ref pw true = (Clear st info, .ok pw))
  ∧ (env.bcrypt ref pw = some BcryptErr.mismatch →
      compare env max none st info ref pw true
        = (Ledger.set st info ((Ledger.get st info).getD 0 + 1),
           .error (.incorrect ((Ledger.get st info).getD 0 + 1)))) := by
  refine ⟨fun heq e2 => ?_, fun hok => ?_, fun hmm => ?_⟩
  · subst heq
    simp [compare, hlock]
  · simp [compare, hlock, hok]
  · exact compare_mismatch_step env max st info ref pw true hlock
      (by simp) hmm (by decide)

/-- Witness for C8: with reference and supplied password both `"p"` and an
always-mismatch bcrypt oracle, plaintext mode succeeds by equality while
hashed mode records an ordinary credential failure. -/
theorem plaintext_equality_policy_witness :
    compare envMismatch 5 none [] "a" "p" "p" false = ([], .ok "p")
  ∧ compare envMismatch 5 none [] "a" "p" "p" true
      = ([("a", 1)], .error (.incorrect 1)) := by
  have h := plaintext_equality_policy envMismatch 5 [] "a" "p" "p" rfl
  exact ⟨h.1 rfl envMismatch, h.2.2 rfl⟩

/-- C9: when the supplied envelope base64-decodes to `ct` and the key
decrypts `ct` to the plaintext `p`, `compare` in RSA mode on the envelope
returns exactly the same (ledger, outcome) pair as `compare` on `p` with
no key configured, and likewise for the exported `CompareRSA` against
`Compare`, from every starting ledger state. -/
theorem rsa_mode_refines_plain
    (env : Env) (max : Nat) (k : RsaKey) (st : Ledger)
    (info ref enc p : String) (hashed : Bool) (ct : List Nat)
    (hb : env.b64 enc = .ok ct) (hd : k.decrypt ct = .ok p) :
    compare env max (some k) st info ref enc hashed
      = compare env max none st info ref p hashed
  ∧ CompareRSA env max (some k) st info ref enc hashed
      = Compare env max st info ref p hashed := by
  have hc : compare env max (some k) st info ref enc hashed
      = compare env max none st info ref p hashed := by
    by_cases h : IsMaxAttempts max st info <;>
      simp [compare, h, decryptEnvelope, hb, hd]
  exact ⟨hc, by simp [CompareRSA, Compare, hc]⟩

/-- Witness for C9: an envelope decrypting to `"p"` under `keyConstP`
gives the same result as supplying `"p"` directly with no key, here a
counted credential failure against reference `"r"`. -/
theorem rsa_mode_refines_plain_witness :
    compare envRSA 5 (some keyConstP) [] "a" "r" "enc" false
      = compare envRSA 5 none [] "a" "r" "p" false
  ∧ CompareRSA envRSA 5 (some keyConstP) [] "a" "r" "enc" false
      = Compare envRSA 5 [] "a" "r" "p" false :=
  rsa_mode_refines_plain envRSA 5 keyConstP [] "a" "r" "enc" "p" false [7] rfl rfl

/-- C10: for a non-locked identity, `compare` with empty reference, empty
supplied password and `hashed = false` succeeds by the exact-equality rule
and deletes any attempt record; yet `change` after a successful old-check
(with non-empty recovered old password) rejects an empty new password with
the blank-password error. -/
theorem empty_password_plaintext_success
    (env : Env) (max : Nat) (st : Ledger) (info : String)
    (hlock : IsMaxAttempts max st info = false) :
    compare env max none st info "" "" false = (Clear st info, .ok "")
  ∧ (∀ (ref old out : String) (st2 : Ledger),
      compare env max none st info ref old false = (st2, .ok out) → out ≠ "" →
      change env max none st info ref old "" "" false
        = (st2, .error .blankPassword)) := by
  refine ⟨by simp [compare, hlock], fun ref old out st2 hcmp hout => ?_⟩
  simp only [change, hcmp, changeValidate]
  simp [hout, Ne.symm hout]

/-- Witness for C10: an empty supplied password verifies against an empty
plaintext reference and clears the prior count of 3, while the change flow
with old password `"x"` rejects an empty new password as blank. -/
theorem empty_password_plaintext_success_witness :
    compare envMismatch 5 none [("a", 3)] "a" "" "" false = ([], .ok "")
  ∧ change envMismatch 5 none [] "b" "x" "x" "" "" false
      = ([], .error .blankPassword) := by
  have h1 := empty_password_plaintext_success envMismatch 5 [("a", 3)] "a" rfl
  have h2 := empty_password_plaintext_success envMismatch 5 [] "b" rfl
  exact ⟨h1.1.trans (by rfl),
         h2.2 "x" "x" "x" [] rfl (by decide)⟩

end Password
